import Mathlib

/-!
# ws-task: a streaming best-bid/offer client

A shallow embedding of `apiclient_impl.go`.

* Go strings and byte slices are Lean `String`s.
* A Go `error` is a `GoError`: either an error made by `fmt.Errorf`
  (with or without a wrapped cause) or an error handed back by a library.
* The websocket connection, the JSON decoder and `strconv.ParseFloat`
  are libraries.  What they answer is an input of the embedded functions:
  the outcome of a write is an argument, the two decoders and the
  number reader are function arguments.
* Effects (writes, logs, closing the shutdown signal, sends on the output
  channel) are recorded in order as a list of `Event`s.
-/

namespace WsTask

/-! ## Errors -/

/-- A Go `error` value. -/
inductive GoError where
  /-- An error returned by a library call, given by its message. -/
  | lib (msg : String)
  /-- The value of `fmt.Errorf(msg)` with no wrapped cause. -/
  | errorf (msg : String)
  /-- The value of `fmt.Errorf(pre + "%w", cause)`. -/
  | wrapf (pre : String) (cause : GoError)
  deriving DecidableEq, Repr

/-- The method `Error()`. -/
def GoError.Error : GoError → String
  | .lib msg => msg
  | .errorf msg => msg
  | .wrapf pre cause => pre ++ cause.Error

/-- The method `Unwrap()` as `errors.Unwrap` sees it. -/
def GoError.Unwrap : GoError → Option GoError
  | .wrapf _ cause => some cause
  | _ => none

/-! ## Domain values -/

/-- The struct `Order`, over the type `F` of float64 values. -/
structure Order (F : Type) where
  Amount : F
  Price : F
  deriving DecidableEq, Repr

/-- The struct `BestOrderBook`. -/
structure BestOrderBook (F : Type) where
  Ask : Order F
  Bid : Order F
  deriving DecidableEq, Repr

/-- The zero value `BestOrderBook{}`. -/
def BestOrderBook.zero (F : Type) [Zero F] : BestOrderBook F :=
  ⟨⟨0, 0⟩, ⟨0, 0⟩⟩

/-! ## strings.Split -/

/-- Cut a character list at every occurrence of `sep`; `cur` holds the
characters of the piece being read, in order. -/
def splitAux (sep : Char) : List Char → List Char → List (List Char)
  | [], cur => [cur]
  | c :: cs, cur =>
    if c = sep then cur :: splitAux sep cs [] else splitAux sep cs (cur ++ [c])

/-- The call `strings.Split(s, sep)` for a one-character separator: the
pieces of `s` between the occurrences of `sep`, one more than there are
occurrences. -/
def stringsSplit (s : String) (sep : Char) : List String :=
  (splitAux sep s.data []).map String.mk

/-! ## The session -/

/-- The connection handle `*websocket.Conn` when it is not nil. -/
structure Conn where
  /-- Whether `Close()` has been called on the handle. -/
  closed : Bool
  deriving DecidableEq, Repr

/-- The struct `Client`.  `conn = none` is the nil handle; `doneClosed`
says whether the channel `done` has been closed. -/
structure Client where
  addr : String
  path : String
  conn : Option Conn
  doneClosed : Bool
  deriving DecidableEq, Repr

/-- The constructor `NewClient`. -/
def NewClient (addr path : String) : Client :=
  { addr := addr, path := path, conn := none, doneClosed := false }

/-- The subscribe message, the anonymous struct with fields `op` and `ch`. -/
structure SubMessage where
  Op : String
  Ch : String
  deriving DecidableEq, Repr

/-- What the code does to the outside world, in order. -/
inductive Event (F : Type) where
  /-- A line given to `log` or `fmt.Println`. -/
  | log (text : String)
  /-- The call `conn.WriteMessage(websocket.CloseMessage, FormatCloseMessage(code, text))`. -/
  | writeClose (code : Nat) (text : String)
  /-- The call `conn.WriteJSON` of a subscribe message. -/
  | writeSub (m : SubMessage)
  /-- The call `conn.WriteJSON` of the ping message. -/
  | writePing
  /-- The statement `close(c.done)`. -/
  | closeDone
  /-- The wait `<-time.After(d)`, in seconds. -/
  | wait (seconds : Nat)
  /-- The call `conn.Close()`. -/
  | connClose
  /-- The send `ch <- book`. -/
  | send (book : BestOrderBook F)
  deriving DecidableEq, Repr

/-- The constant `websocket.CloseNormalClosure`. -/
def CloseNormalClosure : Nat := 1000

/-- How a call ended: it returned a value, or it panicked. -/
inductive Outcome (α : Type) where
  | returned (a : α)
  | panicked (why : String)
  deriving DecidableEq, Repr

/-- The index expression `xs[i]` on a slice: it panics out of range. -/
def sliceIndex (xs : List String) (i : Nat) : Outcome String :=
  match xs.get? i with
  | some x => .returned x
  | none => .panicked "index out of range"

/-- The result of running a method of `Client`: the session afterwards,
the events in order and how the call ended. -/
structure Run (F : Type) (α : Type) where
  client : Client
  trace : List (Event F)
  outcome : Outcome α

/-- The method `Disconnect`.  `closeWriteErr` is what the write of the close
frame answers. -/
def Disconnect (F : Type) (c : Client) (closeWriteErr : Option GoError) : Run F Unit :=
  match c.conn with
  | none => ⟨c, [.log "There is no connection"], .returned ()⟩
  | some k =>
    let t₁ : List (Event F) :=
      .writeClose CloseNormalClosure "" ::
        (match closeWriteErr with
         | some err => [.log ("write close: " ++ err.Error)]
         | none => [])
    if c.doneClosed then
      ⟨c, t₁, .panicked "close of closed channel"⟩
    else
      ⟨{ c with doneClosed := true, conn := some { k with closed := true } },
        t₁ ++ [.closeDone, .wait 1, .connClose], .returned ()⟩

/-- The method `SubscribeToChannel`.  `writeErr` is what the write of the
subscribe message answers, `closeWriteErr` what the write of the close frame
answers should the session be disconnected. -/
def SubscribeToChannel (F : Type) (c : Client) (symbol : String)
    (writeErr closeWriteErr : Option GoError) : Run F (Option GoError) :=
  match c.conn with
  | none => ⟨c, [], .returned (some (.errorf "there is no connection"))⟩
  | some _ =>
    let splitSymbol := stringsSplit symbol '_'
    if splitSymbol.length ≠ 2 then
      ⟨c, [], .returned (some (.errorf "incorrect symbol format"))⟩
    else
      match sliceIndex splitSymbol 1, sliceIndex splitSymbol 0 with
      | .returned s₁, .returned s₀ =>
        let message : SubMessage := { Op := "sub", Ch := "bbo:" ++ s₁ ++ "/" ++ s₀ }
        match writeErr with
        | some err =>
          let d := Disconnect F c closeWriteErr
          ⟨d.client, .writeSub message :: d.trace,
            match d.outcome with
            | .returned _ =>
              .returned (some (.wrapf "error while subscribing, terminating connection: " err))
            | .panicked why => .panicked why⟩
        | none => ⟨c, [.writeSub message], .returned none⟩
      | .panicked why, _ => ⟨c, [], .panicked why⟩
      | _, .panicked why => ⟨c, [], .panicked why⟩

/-- A session is connected: it holds a live connection handle and its
shutdown signal is open. -/
def Client.connected (c : Client) : Prop :=
  (∃ k, c.conn = some k ∧ k.closed = false) ∧ c.doneClosed = false

/-! ## The decoder -/

/-- The inner anonymous struct of `res` in `makeOrderBook`. -/
structure BboData where
  Bid : List String
  Ask : List String
  deriving DecidableEq, Repr

/-- The anonymous struct `res` of `makeOrderBook`, the target of
`json.Unmarshal`. -/
structure BboMessage where
  Symbol : String
  Data : BboData
  deriving DecidableEq, Repr

/-- Sequencing of calls that may panic. -/
def Outcome.andThen {α β : Type} (o : Outcome α) (f : α → Outcome β) : Outcome β :=
  match o with
  | .returned a => f a
  | .panicked why => .panicked why

/-- The function `makeOrderBook`.  `unmarshal` is `json.Unmarshal` into the
struct `res`, `parseFloat` is `strconv.ParseFloat(·, 64)`.  The result is the
pair the Go function returns; the error is `none` for `nil`. -/
def makeOrderBook {F : Type} [Zero F] (unmarshal : String → Except GoError BboMessage)
    (parseFloat : String → Except GoError F) (msg : String) :
    Outcome (BestOrderBook F × Option GoError) :=
  match unmarshal msg with
  | .error err => .returned (BestOrderBook.zero F, some err)
  | .ok res =>
    if res.Data.Ask.length ≠ 2 ∨ res.Data.Bid.length ≠ 2 then
      .returned (BestOrderBook.zero F, some (.errorf "error: invalid response from server"))
    else
      (sliceIndex res.Data.Ask 0).andThen fun askAmountS =>
      (sliceIndex res.Data.Ask 1).andThen fun askPriceS =>
      (sliceIndex res.Data.Bid 0).andThen fun bidAmountS =>
      (sliceIndex res.Data.Bid 1).andThen fun bidPriceS =>
      match parseFloat askAmountS with
      | .error _ =>
        .returned (BestOrderBook.zero F, some (.errorf ("invalid float value: " ++ askAmountS)))
      | .ok askAmount =>
      match parseFloat askPriceS with
      | .error _ =>
        .returned (BestOrderBook.zero F, some (.errorf ("invalid float value: " ++ askPriceS)))
      | .ok askPrice =>
      match parseFloat bidAmountS with
      | .error _ =>
        .returned (BestOrderBook.zero F, some (.errorf ("invalid float value: " ++ bidAmountS)))
      | .ok bidAmount =>
      match parseFloat bidPriceS with
      | .error _ =>
        .returned (BestOrderBook.zero F, some (.errorf ("invalid float value: " ++ bidPriceS)))
      | .ok bidPrice =>
        let askOrder : Order F := { Amount := askAmount, Price := askPrice }
        let bidOrder : Order F := { Amount := bidAmount, Price := bidPrice }
        .returned ({ Ask := askOrder, Bid := bidOrder }, none)

/-! ## The message pump -/

/-- A value of type `any` as `json.Unmarshal` stores it in a
`map[string]any`. -/
inductive Any (F : Type) where
  | nil
  | bool (b : Bool)
  | float64 (x : F)
  | string (s : String)
  | slice (xs : List (Any F))
  | map (kvs : List (String × Any F))

/-- The type `UntypedJson`, a `map[string]any`, by its index expression:
the value stored under a key, `nil` for a key that is absent. -/
abbrev UntypedJson (F : Type) := String → Any F

/-- What ends an iteration of a `for` loop around a `select`: the loop goes
on to its next iteration, or the goroutine returns. -/
inductive LoopCtl where
  | next
  | stop
  deriving DecidableEq, Repr

/-- The case a `select` statement of the pump has chosen. -/
inductive Selected where
  /-- The case `<-c.done`. -/
  | done
  /-- The case `res := <-c.WaitForData()`, with the bytes received. -/
  | data (res : String)
  deriving DecidableEq, Repr

/-- The body of the case `res := <-c.WaitForData()` in
`ReadMessagesFromChannel`: the events of the iteration and how it ends.
`unmarshalUntyped` is `json.Unmarshal` into an `UntypedJson`. -/
def handleData {F : Type} [Zero F] (unmarshalUntyped : String → Except GoError (UntypedJson F))
    (unmarshal : String → Except GoError BboMessage)
    (parseFloat : String → Except GoError F) (res : String) :
    List (Event F) × Outcome LoopCtl :=
  if res.length = 0 then ([], .returned .next)
  else
    match unmarshalUntyped res with
    | .error err => ([.log ("could not parse json :%w " ++ err.Error)], .returned .next)
    | .ok untyped =>
      match untyped "m" with
      | .string "connected" => ([.log "connected successfully"], .returned .next)
      | .string "pong" => ([.log "pong recieved from server"], .returned .next)
      | .string "sub" => ([.log "successfully subscribed to a channel"], .returned .next)
      | .string "bbo" =>
        match makeOrderBook unmarshal parseFloat res with
        | .panicked why => ([], .panicked why)
        | .returned (_, some err) => ([.log err.Error], .returned .next)
        | .returned (book, none) => ([.send book], .returned .next)
      | _ => ([.log ("unrecognized message type, message: " ++ res)], .returned .next)

/-- One iteration of the loop of `ReadMessagesFromChannel`, given the case
its `select` has chosen. -/
def pumpIteration {F : Type} [Zero F] (unmarshalUntyped : String → Except GoError (UntypedJson F))
    (unmarshal : String → Except GoError BboMessage)
    (parseFloat : String → Except GoError F) (sel : Selected) :
    List (Event F) × Outcome LoopCtl :=
  match sel with
  | .done => ([], .returned .stop)
  | .data res => handleData unmarshalUntyped unmarshal parseFloat res

/-- The values an iteration sends on the output channel. -/
def forwarded {F : Type} (t : List (Event F)) : List (BestOrderBook F) :=
  t.filterMap fun e => match e with
    | .send book => some book
    | _ => none

/-! ## Reference readers

The theorems below hold for every JSON decoder and every number reader, so
for those of the Go libraries.  To run the embedding on the payloads of the
examples, this section gives readers for the fragment those payloads use.

* `refParseFloat` reads decimal literals and answers the exact value of the
  literal, where `strconv.ParseFloat` answers the float64 nearest to it.  It
  does not read hexadecimal literals, infinities and NaN, and it has no range
  check.
* `refUnmarshal` and `refUnmarshalUntyped` read JSON without escape
  sequences in strings; field names are matched without regard to ASCII
  letter case, a member met later replaces one met earlier.

They are applied only to literals and payloads of this fragment. -/

/-- The digits at the head of a character list, as a number, with how many
there are and what follows them. -/
def readDigits : List Char → Nat → Nat → Nat × Nat × List Char
  | [], acc, cnt => (acc, cnt, [])
  | c :: cs, acc, cnt =>
    if c.isDigit then readDigits cs (acc * 10 + (c.toNat - 48)) (cnt + 1)
    else (acc, cnt, c :: cs)

/-- An optional sign at the head of a character list: whether it is a minus
sign, and what follows. -/
def readSign : List Char → Bool × List Char
  | '-' :: cs => (true, cs)
  | '+' :: cs => (false, cs)
  | cs => (false, cs)

/-- The exponent part of a decimal literal, `e` or `E`, an optional sign and
at least one digit; the empty list has exponent zero. -/
def readExponent : List Char → Option Int
  | [] => some 0
  | c :: cs =>
    if c = 'e' ∨ c = 'E' then
      match readSign cs with
      | (neg, ds) =>
        match readDigits ds 0 0 with
        | (e, cnt, []) =>
          if cnt = 0 then none else some (if neg then -(e : Int) else (e : Int))
        | _ => none
    else none

/-- A decimal literal `[+-]digits[.digits][e[+-]digits]` with at least one
digit in its mantissa: its sign, its mantissa without the point, and its
power of ten. -/
def scanDecimal (cs : List Char) : Option (Bool × Nat × Int) :=
  match readSign cs with
  | (neg, r₀) =>
    match readDigits r₀ 0 0 with
    | (m₁, n₁, r₁) =>
      match r₁ with
      | '.' :: r₂ =>
        match readDigits r₂ m₁ 0 with
        | (m₂, n₂, r₃) =>
          if n₁ + n₂ = 0 then none
          else (readExponent r₃).map fun e => (neg, m₂, e - (n₂ : Int))
      | _ =>
        if n₁ = 0 then none else (readExponent r₁).map fun e => (neg, m₁, e)

/-- The value of a scanned decimal literal. -/
def decimalValue (neg : Bool) (m : Nat) (e : Int) : ℚ :=
  (if neg then -(m : ℚ) else (m : ℚ)) * (10 : ℚ) ^ e

/-- The reference number reader, `strconv.ParseFloat(s, 64)` on decimal
literals. -/
def refParseFloat (s : String) : Except GoError ℚ :=
  match scanDecimal s.data with
  | some (neg, m, e) => .ok (decimalValue neg m e)
  | none => .error (.lib ("strconv.ParseFloat: parsing " ++ s ++ ": invalid syntax"))

/-- Drop the JSON white space at the head of a character list. -/
def skipWs : List Char → List Char
  | c :: cs => if c = ' ' ∨ c = '\n' ∨ c = '\t' ∨ c = '\r' then skipWs cs else c :: cs
  | [] => []

/-- The double quote character. -/
def quoteChar : Char := Char.ofNat 34

/-- The backslash character. -/
def backslashChar : Char := Char.ofNat 92

/-- The body of a JSON string up to its closing quote, and what follows;
`acc` holds the characters read.  A string with an escape sequence is not
read. -/
def readString : List Char → List Char → Option (String × List Char)
  | [], _ => none
  | c :: cs, acc =>
    if c = quoteChar then some (String.mk acc, cs)
    else if c = backslashChar then none
    else readString cs (acc ++ [c])

/-- Whether a character can stand in a JSON number. -/
def isNumberChar (c : Char) : Bool :=
  c.isDigit || c = '-' || c = '+' || c = '.' || c = 'e' || c = 'E'

mutual
/-- Read one JSON value at the head of a character list, with at most `fuel`
nested or successive values, and answer it with what follows. -/
def readValue : Nat → List Char → Option (Any ℚ × List Char)
  | 0, _ => none
  | fuel + 1, cs =>
    match skipWs cs with
    | [] => none
    | 'n' :: 'u' :: 'l' :: 'l' :: r => some (.nil, r)
    | 't' :: 'r' :: 'u' :: 'e' :: r => some (.bool true, r)
    | 'f' :: 'a' :: 'l' :: 's' :: 'e' :: r => some (.bool false, r)
    | c :: r =>
      if c = quoteChar then
        match readString r [] with
        | some (s, r₁) => some (.string s, r₁)
        | none => none
      else if c = '[' then
        match skipWs r with
        | ']' :: r₁ => some (.slice [], r₁)
        | r₁ =>
          match readElems fuel r₁ with
          | some (xs, r₂) => some (.slice xs, r₂)
          | none => none
      else if c.toNat = 123 then
        match skipWs r with
        | [] => none
        | d :: r₁ =>
          if d.toNat = 125 then some (.map [], r₁)
          else
            match readMembers fuel (d :: r₁) with
            | some (kvs, r₂) => some (.map kvs, r₂)
            | none => none
      else
        match scanDecimal ((c :: r).takeWhile isNumberChar) with
        | some (neg, m, e) =>
          some (.float64 (decimalValue neg m e), (c :: r).dropWhile isNumberChar)
        | none => none
/-- Read the elements of a JSON array up to its closing bracket. -/
def readElems : Nat → List Char → Option (List (Any ℚ) × List Char)
  | 0, _ => none
  | fuel + 1, cs =>
    match readValue fuel cs with
    | none => none
    | some (v, r) =>
      match skipWs r with
      | ',' :: r₁ =>
        match readElems fuel r₁ with
        | some (vs, r₂) => some (v :: vs, r₂)
        | none => none
      | ']' :: r₁ => some ([v], r₁)
      | _ => none
/-- Read the members of a JSON object up to its closing brace. -/
def readMembers : Nat → List Char → Option (List (String × Any ℚ) × List Char)
  | 0, _ => none
  | fuel + 1, cs =>
    match skipWs cs with
    | [] => none
    | q :: r =>
      if q = quoteChar then
        match readString r [] with
        | none => none
        | some (k, r₁) =>
          match skipWs r₁ with
          | ':' :: r₂ =>
            match readValue fuel r₂ with
            | none => none
            | some (v, r₃) =>
              match skipWs r₃ with
              | [] => none
              | d :: r₄ =>
                if d = ',' then
                  match readMembers fuel r₄ with
                  | some (kvs, r₅) => some ((k, v) :: kvs, r₅)
                  | none => none
                else if d.toNat = 125 then some ([(k, v)], r₄)
                else none
          | _ => none
      else none
end

/-- Read a whole JSON text: one value and nothing but white space after it. -/
def readJson (s : String) : Option (Any ℚ) :=
  match readValue (s.length + 1) s.data with
  | some (v, r) => if skipWs r = [] then some v else none
  | none => none

/-- A JSON key in lower case, for the comparison with a field name. -/
def lowerKey (k : String) : String :=
  String.mk (k.data.map Char.toLower)

/-- What a JSON value is called in a type error of `encoding/json`. -/
def Any.kind {F : Type} : Any F → String
  | .nil => "null"
  | .bool _ => "bool"
  | .float64 _ => "number"
  | .string _ => "string"
  | .slice _ => "array"
  | .map _ => "object"

/-- Decode the elements of a JSON array into a `[]string`: a string is
taken, `null` leaves the empty string, anything else is a type error. -/
def decodeStrings : List (Any ℚ) → Except GoError (List String)
  | [] => .ok []
  | v :: vs =>
    match decodeStrings vs with
    | .error err => .error err
    | .ok ss =>
      match v with
      | .string s => .ok (s :: ss)
      | .nil => .ok ("" :: ss)
      | other =>
        .error (.lib ("json: cannot unmarshal " ++ other.kind ++ " into Go value of type string"))

/-- Decode a JSON value into a field of type `[]string`. -/
def decodeSlice : Any ℚ → Except GoError (List String)
  | .slice xs => decodeStrings xs
  | .nil => .ok []
  | other =>
    .error (.lib ("json: cannot unmarshal " ++ other.kind ++ " into Go value of type []string"))

/-- Decode the members of the object under `data`, in order, into the
struct that holds `d`. -/
def decodeData (d : BboData) : List (String × Any ℚ) → Except GoError BboData
  | [] => .ok d
  | (k, v) :: kvs =>
    if lowerKey k = "bid" then
      match decodeSlice v with
      | .ok xs => decodeData { d with Bid := xs } kvs
      | .error err => .error err
    else if lowerKey k = "ask" then
      match decodeSlice v with
      | .ok xs => decodeData { d with Ask := xs } kvs
      | .error err => .error err
    else decodeData d kvs

/-- Decode the members of the top object, in order, into the struct that
holds `m`. -/
def decodeMessage (m : BboMessage) : List (String × Any ℚ) → Except GoError BboMessage
  | [] => .ok m
  | (k, v) :: kvs =>
    if lowerKey k = "symbol" then
      match v with
      | .string s => decodeMessage { m with Symbol := s } kvs
      | .nil => decodeMessage m kvs
      | other =>
        .error (.lib ("json: cannot unmarshal " ++ other.kind ++ " into Go value of type string"))
    else if lowerKey k = "data" then
      match v with
      | .map dkvs =>
        match decodeData m.Data dkvs with
        | .ok d => decodeMessage { m with Data := d } kvs
        | .error err => .error err
      | .nil => decodeMessage m kvs
      | other =>
        .error (.lib ("json: cannot unmarshal " ++ other.kind ++ " into Go value of type struct"))
    else decodeMessage m kvs

/-- The reference decoder into the struct `res` of `makeOrderBook`. -/
def refUnmarshal (msg : String) : Except GoError BboMessage :=
  match readJson msg with
  | none => .error (.lib "json: invalid syntax")
  | some (.map kvs) => decodeMessage ⟨"", ⟨[], []⟩⟩ kvs
  | some .nil => .ok ⟨"", ⟨[], []⟩⟩
  | some other =>
    .error (.lib ("json: cannot unmarshal " ++ other.kind ++ " into Go value of type struct"))

/-- The value a `map[string]any` built from the members of an object, in
order, holds under `key`: that of the last member with this key. -/
def mapIndex (kvs : List (String × Any ℚ)) (key : String) : Any ℚ :=
  match kvs with
  | [] => .nil
  | (k, v) :: rest =>
    if rest.any (fun kv => kv.1 = key) then mapIndex rest key
    else if k = key then v else .nil

/-- The reference decoder into an `UntypedJson`. -/
def refUnmarshalUntyped (msg : String) : Except GoError (UntypedJson ℚ) :=
  match readJson msg with
  | none => .error (.lib "json: invalid syntax")
  | some (.map kvs) => .ok (mapIndex kvs)
  | some .nil => .ok (fun _ => .nil)
  | some other =>
    .error (.lib ("json: cannot unmarshal " ++ other.kind ++ " into Go value of type main.UntypedJson"))

/-! ## Example inputs -/

/-- The payload of the decoding example. -/
def examplePayload : String :=
  "\x7b\"data\":\x7b\"bid\":[\"1.5\",\"29000.25\"],\"ask\":[\"0.8\",\"29010.10\"]\x7d\x7d"

/-- A payload whose `ask` has one element. -/
def shortAskPayload : String :=
  "\x7b\"data\":\x7b\"bid\":[\"1.5\",\"29000.25\"],\"ask\":[\"1.0\"]\x7d\x7d"

/-- A payload whose second literal, in the order the decoder reads them, is
not a number. -/
def badLiteralPayload : String :=
  "\x7b\"data\":\x7b\"bid\":[\"1.5\",\"oops\"],\"ask\":[\"0.8\",\"12,5\"]\x7d\x7d"

/-- A payload whose ask amount carries a minus sign. -/
def negativePayload : String :=
  "\x7b\"data\":\x7b\"bid\":[\"1.5\",\"29000.25\"],\"ask\":[\"-0.8\",\"29010.10\"]\x7d\x7d"

/-- A data frame as the feed sends it. -/
def bboFrame : String :=
  "\x7b\"m\":\"bbo\",\"symbol\":\"BTC/USDT\",\"data\":\x7b\"ts\":1573068442532,\"bid\":[\"1.5\",\"29000.25\"],\"ask\":[\"0.8\",\"29010.10\"]\x7d\x7d"

/-- A session after a successful `Connection()`. -/
def liveClient : Client :=
  { addr := "ascendex.com", path := "0/api/pro/v1/stream", conn := some ⟨false⟩,
    doneClosed := false }

/-! ## Predicates of the statements -/

/-- Whether the number reader the code calls accepts a string: it answers a
value and a nil error. -/
def validFloat {F : Type} (parseFloat : String → Except GoError F) (s : String) : Bool :=
  match parseFloat s with
  | .ok _ => true
  | .error _ => false

/-- Whether an event is a write of a subscribe message. -/
def Event.isWriteSub {F : Type} : Event F → Bool
  | .writeSub _ => true
  | _ => false

/-- Whether an event is a write on the connection. -/
def Event.isWrite {F : Type} : Event F → Bool
  | .writeSub _ => true
  | .writeClose _ _ => true
  | .writePing => true
  | _ => false

end WsTask

/-! ## A number reader with the special values

The reader `refParseFloat` answers rationals, so it cannot answer an infinity
or NaN.  `strconv.ParseFloat` does: before it looks for digits it calls
`special`, which reads `inf`, `infinity` (with an optional sign) and `nan`
in any letter case.  This section follows that order on a type of float64
values that has them. -/

namespace WsTask

/-- A float64 value: a finite number, standing for the float64 nearest to
it, an infinity or NaN. -/
inductive Float64 where
  | finite (q : ℚ)
  | inf (negative : Bool)
  | nan
  deriving DecidableEq

instance : Zero Float64 := ⟨.finite 0⟩

/-- The function `commonPrefixLenIgnoreCase` of strconv: how many leading
characters of `s`, with the letters A to Z in lower case, agree with the
lower-case text `pat`. -/
def commonPrefixLenIgnoreCase : List Char → List Char → Nat
  | c :: cs, p :: ps =>
    if c.toLower = p then commonPrefixLenIgnoreCase cs ps + 1 else 0
  | _, _ => 0

/-- The case `'i', 'I'` of `special`, which the case of a sign falls through
to: an infinity when `s` starts with `inf` or with `infinity`, and the number
of characters read, `nsign` of them for the sign. -/
def specialInfinity (s : List Char) (negative : Bool) (nsign : Nat) : Option (Float64 × Nat) :=
  let n := commonPrefixLenIgnoreCase s "infinity".data
  let n := if 3 < n ∧ n < 8 then 3 else n
  if n = 3 ∨ n = 8 then some (.inf negative, nsign + n) else none

/-- The function `special` of strconv: the special value at the head of a
string, with the number of characters it takes. -/
def special (s : List Char) : Option (Float64 × Nat) :=
  match s with
  | [] => none
  | c :: rest =>
    if c = '+' ∨ c = '-' then specialInfinity rest (c = '-') 1
    else if c = 'i' ∨ c = 'I' then specialInfinity s false 0
    else if c = 'n' ∨ c = 'N' then
      if commonPrefixLenIgnoreCase s "nan".data = 3 then some (.nan, 3) else none
    else none

/-- Whether the decimal number with mantissa `m` and power of ten `e` rounds
to a float64 infinity: it is at least halfway from the largest float64 to
two to the power 1024. -/
def float64Overflow (m : Nat) (e : Int) : Prop :=
  (2 : ℚ) ^ 1024 - (2 : ℚ) ^ 970 ≤ (m : ℚ) * (10 : ℚ) ^ e

instance (m : Nat) (e : Int) : Decidable (float64Overflow m e) :=
  inferInstanceAs (Decidable (_ ≤ _))

/-- The reference reader with the special values: `strconv.ParseFloat(s, 64)`
on the special values and on decimal literals, with its range error.  Like
`refParseFloat` it does not read hexadecimal literals and digits separated by
underscores. -/
def refParseFloat64 (s : String) : Except GoError Float64 :=
  match special s.data with
  | some (v, n) =>
    if n = s.data.length then .ok v
    else .error (.lib ("strconv.ParseFloat: parsing " ++ s ++ ": invalid syntax"))
  | none =>
    match scanDecimal s.data with
    | some (neg, m, e) =>
      if float64Overflow m e then
        .error (.lib ("strconv.ParseFloat: parsing " ++ s ++ ": value out of range"))
      else .ok (.finite (decimalValue neg m e))
    | none => .error (.lib ("strconv.ParseFloat: parsing " ++ s ++ ": invalid syntax"))

/-- Whether a string is a decimal number by its form: an optional sign,
digits with an optional point, an optional exponent. -/
def validDecimal (s : String) : Bool :=
  (scanDecimal s.data).isSome

/-- A payload whose ask amount is the text `Inf`. -/
def infinityPayload : String :=
  "\x7b\"data\":\x7b\"bid\":[\"1.5\",\"29000.25\"],\"ask\":[\"Inf\",\"29010.10\"]\x7d\x7d"

/-- A payload whose ask amount is the text `Inf` and whose bid price is the
text `oops`. -/
def infinityOopsPayload : String :=
  "\x7b\"data\":\x7b\"bid\":[\"1.5\",\"oops\"],\"ask\":[\"Inf\",\"29010.10\"]\x7d\x7d"

end WsTask

/-! ## strings.Split: lemmas -/

namespace WsTask

theorem splitAux_length (sep : Char) (l cur : List Char) :
    (splitAux sep l cur).length = l.count sep + 1 := by
  induction l generalizing cur with
  | nil => simp [splitAux]
  | cons c cs ih =>
    by_cases h : c = sep
    · subst h
      simp [splitAux, ih]
    · have h' : (c == sep) = false := by simpa using h
      simp [splitAux, h, ih, List.count_cons, h']

theorem splitAux_no_sep (sep : Char) (l cur : List Char) (h : sep ∉ l) :
    splitAux sep l cur = [cur ++ l] := by
  induction l generalizing cur with
  | nil => simp [splitAux]
  | cons c cs ih =>
    have hc : c ≠ sep := fun e => h (by simp [e])
    have hcs : sep ∉ cs := fun e => h (by simp [e])
    simp [splitAux, hc, ih _ hcs]

theorem splitAux_append (sep : Char) (l r cur : List Char) (h : sep ∉ l) :
    splitAux sep (l ++ sep :: r) cur = (cur ++ l) :: splitAux sep r [] := by
  induction l generalizing cur with
  | nil => simp [splitAux]
  | cons c cs ih =>
    have hc : c ≠ sep := fun e => h (by simp [e])
    have hcs : sep ∉ cs := fun e => h (by simp [e])
    simp [splitAux, hc, ih _ hcs]

theorem stringsSplit_length (s : String) (sep : Char) :
    (stringsSplit s sep).length = s.data.count sep + 1 := by
  simp [stringsSplit, splitAux_length]

theorem stringsSplit_pair (base quote : String) (sep : Char)
    (hb : sep ∉ base.data) (hq : sep ∉ quote.data) :
    stringsSplit (base ++ String.singleton sep ++ quote) sep = [base, quote] := by
  have hd : (base ++ String.singleton sep ++ quote).data = base.data ++ sep :: quote.data := by
    simp [String.data_append, String.singleton]
  simp [stringsSplit, hd, splitAux_append sep _ _ _ hb, splitAux_no_sep sep _ _ hq]

end WsTask

/-! ## The session: subscribe and disconnect -/

namespace WsTask

theorem stringsSplit_two (symbol : String) (h : symbol.data.count '_' = 1) :
    ∃ s₀ s₁, stringsSplit symbol '_' = [s₀, s₁] := by
  have hl := stringsSplit_length symbol '_'
  rw [h] at hl
  match hs : stringsSplit symbol '_', hl with
  | [a, b], _ => exact ⟨a, b, rfl⟩

/-- C4: on a connected session, for a symbol `BASE_QUOTE` with no other
underscore, when the write succeeds `SubscribeToChannel` writes exactly the
message with op `sub` and channel `bbo:QUOTE/BASE`, returns a nil error and
leaves the session as it was. -/
theorem SubscribeToChannel_swaps (F : Type) (c : Client) (base quote : String)
    (closeWriteErr : Option GoError) (hc : c.connected)
    (hb : '_' ∉ base.data) (hq : '_' ∉ quote.data) :
    SubscribeToChannel F c (base ++ "_" ++ quote) none closeWriteErr =
      ⟨c, [.writeSub { Op := "sub", Ch := "bbo:" ++ quote ++ "/" ++ base }], .returned none⟩ := by
  obtain ⟨⟨k, hk, -⟩, -⟩ := hc
  have hsplit : stringsSplit (base ++ "_" ++ quote) '_' = [base, quote] :=
    stringsSplit_pair base quote '_' hb hq
  simp [SubscribeToChannel, hk, hsplit, sliceIndex]

/-- C4, at the symbol of the test: `USDT_BTC` subscribes to `bbo:BTC/USDT`. -/
theorem SubscribeToChannel_swaps_witness :
    SubscribeToChannel ℚ liveClient "USDT_BTC" none none =
      ⟨liveClient, [.writeSub { Op := "sub", Ch := "bbo:BTC/USDT" }], .returned none⟩ :=
  SubscribeToChannel_swaps ℚ liveClient "USDT" "BTC" none
    ⟨⟨⟨false⟩, rfl, rfl⟩, rfl⟩ (by decide) (by decide)

/-- C5: on a connected session, a symbol whose number of underscores is not
one makes `SubscribeToChannel` return the format error; nothing is written
and the session is left as it was, connected and with its shutdown signal
open. -/
theorem SubscribeToChannel_rejects_format (F : Type) (c : Client) (symbol : String)
    (writeErr closeWriteErr : Option GoError) (hc : c.connected)
    (hs : symbol.data.count '_' ≠ 1) :
    SubscribeToChannel F c symbol writeErr closeWriteErr =
        ⟨c, [], .returned (some (.errorf "incorrect symbol format"))⟩ ∧
      (SubscribeToChannel F c symbol writeErr closeWriteErr).client.connected ∧
      (SubscribeToChannel F c symbol writeErr closeWriteErr).client.doneClosed = false := by
  have hl := stringsSplit_length symbol '_'
  have hlen : (stringsSplit symbol '_').length ≠ 2 := by
    rw [hl]
    intro h2
    exact hs (by omega)
  have hrun : SubscribeToChannel F c symbol writeErr closeWriteErr =
      ⟨c, [], .returned (some (.errorf "incorrect symbol format"))⟩ := by
    obtain ⟨⟨k, hk, -⟩, -⟩ := hc
    simp [SubscribeToChannel, hk, hlen]
  rw [hrun]
  exact ⟨rfl, hc, hc.2⟩

/-- C5, at a symbol with no underscore and at one with two. -/
theorem SubscribeToChannel_rejects_format_witness :
    (SubscribeToChannel ℚ liveClient "USDTBTC" none none =
        ⟨liveClient, [], .returned (some (.errorf "incorrect symbol format"))⟩ ∧
      (SubscribeToChannel ℚ liveClient "USDTBTC" none none).client.connected ∧
      (SubscribeToChannel ℚ liveClient "USDTBTC" none none).client.doneClosed = false) ∧
    (SubscribeToChannel ℚ liveClient "USDT_BTC_ETH" none none).trace = [] :=
  ⟨SubscribeToChannel_rejects_format ℚ liveClient "USDTBTC" none none
      ⟨⟨⟨false⟩, rfl, rfl⟩, rfl⟩ (by decide),
    congrArg Run.trace (SubscribeToChannel_rejects_format ℚ liveClient "USDT_BTC_ETH" none none
      ⟨⟨⟨false⟩, rfl, rfl⟩, rfl⟩ (by decide)).1⟩

/-- C7: on a session whose connection handle is nil, `Disconnect` returns
normally; its only effect is one log line, so no close frame is written and
the shutdown signal is not closed, and the session is left unchanged. -/
theorem Disconnect_without_connection (F : Type) (c : Client)
    (closeWriteErr : Option GoError) (h : c.conn = none) :
    Disconnect F c closeWriteErr = ⟨c, [.log "There is no connection"], .returned ()⟩ := by
  simp [Disconnect, h]

/-- C7, at a session that was never connected. -/
theorem Disconnect_without_connection_witness :
    Disconnect ℚ (NewClient "ascendex.com" "0/api/pro/v1/stream") none =
      ⟨NewClient "ascendex.com" "0/api/pro/v1/stream", [.log "There is no connection"],
        .returned ()⟩ :=
  Disconnect_without_connection ℚ (NewClient "ascendex.com" "0/api/pro/v1/stream") none rfl

/-- C8: on a connected session, for a symbol with exactly one underscore,
when the write of the subscribe message fails `SubscribeToChannel`
disconnects: the shutdown signal is closed and the handle is closed, in this
order, after the close frame was written.  It returns the write error
wrapped, and the subscribe message was written once: no other event of the
call is a write of it. -/
theorem SubscribeToChannel_write_failure (F : Type) (c : Client) (symbol : String)
    (err : GoError) (closeWriteErr : Option GoError) (hc : c.connected)
    (hs : symbol.data.count '_' = 1) :
    (SubscribeToChannel F c symbol (some err) closeWriteErr).client.doneClosed = true ∧
    (∃ k, (SubscribeToChannel F c symbol (some err) closeWriteErr).client.conn = some k ∧
      k.closed = true) ∧
    (SubscribeToChannel F c symbol (some err) closeWriteErr).outcome =
      .returned (some (.wrapf "error while subscribing, terminating connection: " err)) ∧
    (GoError.wrapf "error while subscribing, terminating connection: " err).Unwrap = some err ∧
    (∃ s₀ s₁ logs, stringsSplit symbol '_' = [s₀, s₁] ∧
      (SubscribeToChannel F c symbol (some err) closeWriteErr).trace =
        .writeSub { Op := "sub", Ch := "bbo:" ++ s₁ ++ "/" ++ s₀ } ::
          .writeClose CloseNormalClosure "" :: (logs ++ [.closeDone, .wait 1, .connClose]) ∧
      ∀ e ∈ logs, e.isWrite = false) := by
  obtain ⟨s₀, s₁, hsp⟩ := stringsSplit_two symbol hs
  obtain ⟨⟨k, hk, -⟩, hd⟩ := hc
  refine ⟨?_, ?_, ?_, rfl, ?_⟩
  · simp [SubscribeToChannel, Disconnect, hk, hsp, hd, sliceIndex]
  · simp [SubscribeToChannel, Disconnect, hk, hsp, hd, sliceIndex]
  · simp [SubscribeToChannel, Disconnect, hk, hsp, hd, sliceIndex]
  · cases closeWriteErr with
    | none =>
      exact ⟨s₀, s₁, [], hsp, by simp [SubscribeToChannel, Disconnect, hk, hsp, hd, sliceIndex], by simp⟩
    | some e =>
      exact ⟨s₀, s₁, [.log ("write close: " ++ e.Error)], hsp,
        by simp [SubscribeToChannel, Disconnect, hk, hsp, hd, sliceIndex], by simp [Event.isWrite]⟩

/-- C8, at the symbol of the test with a write error. -/
theorem SubscribeToChannel_write_failure_witness :
    (SubscribeToChannel ℚ liveClient "USDT_BTC" (some (.lib "broken pipe")) none).client.doneClosed
        = true ∧
    (SubscribeToChannel ℚ liveClient "USDT_BTC" (some (.lib "broken pipe")) none).outcome =
      .returned (some (.wrapf "error while subscribing, terminating connection: "
        (.lib "broken pipe"))) :=
  have h := SubscribeToChannel_write_failure ℚ liveClient "USDT_BTC" (.lib "broken pipe") none
    ⟨⟨⟨false⟩, rfl, rfl⟩, rfl⟩ (by decide)
  ⟨h.1, h.2.2.1⟩

end WsTask

/-! ## The decoder: theorems -/

namespace WsTask

theorem length_two {α : Type} (l : List α) (h : l.length = 2) : ∃ a b, l = [a, b] := by
  match l, h with
  | [a, b], _ => exact ⟨a, b, rfl⟩

/-- On a payload that decodes with two asks and two bids, `makeOrderBook` is
the chain of its four calls of the number reader. -/
theorem makeOrderBook_two {F : Type} [Zero F] (unmarshal : String → Except GoError BboMessage)
    (parseFloat : String → Except GoError F) (msg : String) (res : BboMessage)
    (a₀ a₁ b₀ b₁ : String) (hu : unmarshal msg = .ok res)
    (ha : res.Data.Ask = [a₀, a₁]) (hb : res.Data.Bid = [b₀, b₁]) :
    makeOrderBook unmarshal parseFloat msg =
      match parseFloat a₀ with
      | .error _ => .returned (BestOrderBook.zero F, some (.errorf ("invalid float value: " ++ a₀)))
      | .ok x₀ =>
      match parseFloat a₁ with
      | .error _ => .returned (BestOrderBook.zero F, some (.errorf ("invalid float value: " ++ a₁)))
      | .ok x₁ =>
      match parseFloat b₀ with
      | .error _ => .returned (BestOrderBook.zero F, some (.errorf ("invalid float value: " ++ b₀)))
      | .ok y₀ =>
      match parseFloat b₁ with
      | .error _ => .returned (BestOrderBook.zero F, some (.errorf ("invalid float value: " ++ b₁)))
      | .ok y₁ => .returned (⟨⟨x₀, x₁⟩, ⟨y₀, y₁⟩⟩, none) := by
  simp [makeOrderBook, hu, ha, hb, sliceIndex, Outcome.andThen]

theorem makeOrderBook_unmarshal_error {F : Type} [Zero F]
    (unmarshal : String → Except GoError BboMessage)
    (parseFloat : String → Except GoError F) (msg : String) (err : GoError)
    (hu : unmarshal msg = .error err) :
    makeOrderBook unmarshal parseFloat msg = .returned (BestOrderBook.zero F, some err) := by
  simp [makeOrderBook, hu]

theorem makeOrderBook_bad_length {F : Type} [Zero F]
    (unmarshal : String → Except GoError BboMessage)
    (parseFloat : String → Except GoError F) (msg : String) (res : BboMessage)
    (hu : unmarshal msg = .ok res)
    (hlen : res.Data.Ask.length ≠ 2 ∨ res.Data.Bid.length ≠ 2) :
    makeOrderBook unmarshal parseFloat msg =
      .returned (BestOrderBook.zero F, some (.errorf "error: invalid response from server")) := by
  simp only [makeOrderBook, hu, if_pos hlen]

/-- An error result of `makeOrderBook` comes with the zero book, and a book
that is returned with a nil error comes from a payload that decodes with two
asks and two bids which the number reader all accepts, with these values. -/
theorem makeOrderBook_cases {F : Type} [Zero F]
    (unmarshal : String → Except GoError BboMessage)
    (parseFloat : String → Except GoError F) (msg : String) :
    (∃ err, makeOrderBook unmarshal parseFloat msg = .returned (BestOrderBook.zero F, some err)) ∨
    (∃ res a₀ a₁ b₀ b₁ x₀ x₁ y₀ y₁, unmarshal msg = .ok res ∧
      res.Data.Ask = [a₀, a₁] ∧ res.Data.Bid = [b₀, b₁] ∧
      parseFloat a₀ = .ok x₀ ∧ parseFloat a₁ = .ok x₁ ∧
      parseFloat b₀ = .ok y₀ ∧ parseFloat b₁ = .ok y₁ ∧
      makeOrderBook unmarshal parseFloat msg = .returned (⟨⟨x₀, x₁⟩, ⟨y₀, y₁⟩⟩, none)) := by
  cases hu : unmarshal msg with
  | error err => exact Or.inl ⟨err, makeOrderBook_unmarshal_error _ _ _ _ hu⟩
  | ok res =>
    by_cases hlen : res.Data.Ask.length ≠ 2 ∨ res.Data.Bid.length ≠ 2
    · exact Or.inl ⟨_, makeOrderBook_bad_length _ _ _ _ hu hlen⟩
    · have h2 : res.Data.Ask.length = 2 ∧ res.Data.Bid.length = 2 := by
        constructor <;> by_contra hne <;> exact hlen (by simp [hne])
      obtain ⟨a₀, a₁, ha⟩ := length_two _ h2.1
      obtain ⟨b₀, b₁, hb⟩ := length_two _ h2.2
      rw [makeOrderBook_two unmarshal parseFloat msg res a₀ a₁ b₀ b₁ hu ha hb]
      cases h₀ : parseFloat a₀ with
      | error _ => exact Or.inl ⟨_, rfl⟩
      | ok x₀ =>
      cases h₁ : parseFloat a₁ with
      | error _ => exact Or.inl ⟨_, rfl⟩
      | ok x₁ =>
      cases h₂ : parseFloat b₀ with
      | error _ => exact Or.inl ⟨_, rfl⟩
      | ok y₀ =>
      cases h₃ : parseFloat b₁ with
      | error _ => exact Or.inl ⟨_, rfl⟩
      | ok y₁ =>
        exact Or.inr ⟨res, a₀, a₁, b₀, b₁, x₀, x₁, y₀, y₁, rfl, ha, hb, h₀, h₁, h₂, h₃, rfl⟩

/-- The function `makeOrderBook` never panics: it returns on every payload. -/
theorem makeOrderBook_returns {F : Type} [Zero F]
    (unmarshal : String → Except GoError BboMessage)
    (parseFloat : String → Except GoError F) (msg : String) :
    ∃ r, makeOrderBook unmarshal parseFloat msg = .returned r := by
  rcases makeOrderBook_cases unmarshal parseFloat msg with ⟨err, h⟩ | h
  · exact ⟨_, h⟩
  · obtain ⟨_, _, _, _, _, _, _, _, _, _, _, _, _, _, _, _, h⟩ := h
    exact ⟨_, h⟩

end WsTask

/-! ## The reference readers at the literals of the examples -/

namespace WsTask

theorem refParseFloat_ask_amount : refParseFloat "0.8" = .ok 0.8 := by
  have h : scanDecimal "0.8".data = some (false, 8, -1) := by decide
  simp only [refParseFloat, h, decimalValue]
  norm_num

theorem refParseFloat_ask_price : refParseFloat "29010.10" = .ok 29010.10 := by
  have h : scanDecimal "29010.10".data = some (false, 2901010, -2) := by decide
  simp only [refParseFloat, h, decimalValue]
  norm_num

theorem refParseFloat_bid_amount : refParseFloat "1.5" = .ok 1.5 := by
  have h : scanDecimal "1.5".data = some (false, 15, -1) := by decide
  simp only [refParseFloat, h, decimalValue]
  norm_num

theorem refParseFloat_bid_price : refParseFloat "29000.25" = .ok 29000.25 := by
  have h : scanDecimal "29000.25".data = some (false, 2900025, -2) := by decide
  simp only [refParseFloat, h, decimalValue]
  norm_num

theorem refParseFloat_negative : refParseFloat "-0.8" = .ok (-0.8) := by
  have h : scanDecimal "-0.8".data = some (true, 8, -1) := by decide
  simp only [refParseFloat, h, decimalValue]
  norm_num

theorem refParseFloat64_inf : refParseFloat64 "Inf" = .ok (.inf false) := rfl

theorem refParseFloat64_oops :
    refParseFloat64 "oops" =
      .error (.lib ("strconv.ParseFloat: parsing " ++ "oops" ++ ": invalid syntax")) := rfl

theorem refParseFloat64_ask_price : refParseFloat64 "29010.10" = .ok (.finite 29010.10) := by
  have h : scanDecimal "29010.10".data = some (false, 2901010, -2) := by decide
  have hs : special "29010.10".data = none := by decide
  simp only [refParseFloat64, h, hs, decimalValue, float64Overflow]
  norm_num

theorem refParseFloat64_bid_amount : refParseFloat64 "1.5" = .ok (.finite 1.5) := by
  have h : scanDecimal "1.5".data = some (false, 15, -1) := by decide
  have hs : special "1.5".data = none := by decide
  simp only [refParseFloat64, h, hs, decimalValue, float64Overflow]
  norm_num

theorem refParseFloat64_bid_price : refParseFloat64 "29000.25" = .ok (.finite 29000.25) := by
  have h : scanDecimal "29000.25".data = some (false, 2900025, -2) := by decide
  have hs : special "29000.25".data = none := by decide
  simp only [refParseFloat64, h, hs, decimalValue, float64Overflow]
  norm_num

end WsTask

/-! ## The decoder: the claims -/

namespace WsTask

/-- C1: when the payload decodes to a struct whose `ask` is `[a₀, a₁]` and
whose `bid` is `[b₀, b₁]`, and the number reader accepts the four strings,
`makeOrderBook` returns a nil error and the book with ask amount the value of
`a₀`, ask price the value of `a₁`, bid amount the value of `b₀` and bid price
the value of `b₁`.  The result is a function of the payload. -/
theorem makeOrderBook_decodes {F : Type} [Zero F]
    (unmarshal : String → Except GoError BboMessage)
    (parseFloat : String → Except GoError F) (msg : String) (res : BboMessage)
    (a₀ a₁ b₀ b₁ : String) (x₀ x₁ y₀ y₁ : F) (hu : unmarshal msg = .ok res)
    (ha : res.Data.Ask = [a₀, a₁]) (hb : res.Data.Bid = [b₀, b₁])
    (h₀ : parseFloat a₀ = .ok x₀) (h₁ : parseFloat a₁ = .ok x₁)
    (h₂ : parseFloat b₀ = .ok y₀) (h₃ : parseFloat b₁ = .ok y₁) :
    makeOrderBook unmarshal parseFloat msg =
      .returned ({ Ask := { Amount := x₀, Price := x₁ }, Bid := { Amount := y₀, Price := y₁ } },
        none) := by
  rw [makeOrderBook_two unmarshal parseFloat msg res a₀ a₁ b₀ b₁ hu ha hb, h₀, h₁, h₂, h₃]

/-- C1, at the payload of the example: bid 1.5 at 29000.25, ask 0.8 at
29010.10. -/
theorem makeOrderBook_decodes_witness :
    makeOrderBook refUnmarshal refParseFloat examplePayload =
      .returned ({ Ask := { Amount := 0.8, Price := 29010.10 },
                   Bid := { Amount := 1.5, Price := 29000.25 } }, none) :=
  makeOrderBook_decodes refUnmarshal refParseFloat examplePayload
    ⟨"", ⟨["1.5", "29000.25"], ["0.8", "29010.10"]⟩⟩ "0.8" "29010.10" "1.5" "29000.25"
    0.8 29010.10 1.5 29000.25 rfl rfl rfl
    refParseFloat_ask_amount refParseFloat_ask_price refParseFloat_bid_amount
    refParseFloat_bid_price

/-- C2: when every struct the payload decodes to has an `ask` or a `bid`
whose length is not two, `makeOrderBook` returns, without a panic, the zero
book and an error, whatever the number reader answers; when the payload does
decode, the error is the structural one, `error: invalid response from
server`. -/
theorem makeOrderBook_rejects_length {F : Type} [Zero F]
    (unmarshal : String → Except GoError BboMessage)
    (parseFloat : String → Except GoError F) (msg : String)
    (h : ∀ res, unmarshal msg = .ok res →
      res.Data.Ask.length ≠ 2 ∨ res.Data.Bid.length ≠ 2) :
    ∃ err, makeOrderBook unmarshal parseFloat msg = .returned (BestOrderBook.zero F, some err) ∧
      ∀ res, unmarshal msg = .ok res → err = .errorf "error: invalid response from server" := by
  cases hu : unmarshal msg with
  | error err =>
    exact ⟨err, makeOrderBook_unmarshal_error _ _ _ _ hu, fun res hres => by simp at hres⟩
  | ok res =>
    exact ⟨_, makeOrderBook_bad_length _ _ _ _ hu (h res hu), fun _ _ => rfl⟩

/-- C2, at a payload whose `ask` is `["1.0"]`. -/
theorem makeOrderBook_rejects_length_witness :
    makeOrderBook refUnmarshal refParseFloat shortAskPayload =
      .returned (BestOrderBook.zero ℚ, some (.errorf "error: invalid response from server")) := by
  have hu : refUnmarshal shortAskPayload = .ok ⟨"", ⟨["1.5", "29000.25"], ["1.0"]⟩⟩ := rfl
  obtain ⟨err, hrun, herr⟩ :=
    makeOrderBook_rejects_length refUnmarshal refParseFloat shortAskPayload
      (fun res hres => by
        rw [hu] at hres
        cases hres
        exact Or.inl (by decide))
  rw [hrun, herr _ hu]

/-- C3, refuted: being rejected by `strconv.ParseFloat` is not the same as
not being a decimal number.  The text `Inf` is not a decimal number, yet on a
payload whose ask amount is `Inf` and whose other strings are decimal
numbers `makeOrderBook` returns a nil error and a book with an infinite ask
amount; and on a payload whose ask amount is `Inf` and whose bid price is
`oops` the first string that is not a decimal number is `Inf`, while the
error names `oops`. -/
theorem makeOrderBook_accepts_infinity :
    validDecimal "Inf" = false ∧
    makeOrderBook refUnmarshal refParseFloat64 infinityPayload =
      .returned ({ Ask := { Amount := .inf false, Price := .finite 29010.10 },
                   Bid := { Amount := .finite 1.5, Price := .finite 29000.25 } }, none) ∧
    ["Inf", "29010.10", "1.5", "oops"].find? (fun t => !validDecimal t) = some "Inf" ∧
    makeOrderBook refUnmarshal refParseFloat64 infinityOopsPayload =
      .returned (BestOrderBook.zero Float64, some (.errorf "invalid float value: oops")) := by
  refine ⟨by decide, ?_, by decide, ?_⟩
  · rw [makeOrderBook_two refUnmarshal refParseFloat64 infinityPayload
      ⟨"", ⟨["1.5", "29000.25"], ["Inf", "29010.10"]⟩⟩ "Inf" "29010.10" "1.5" "29000.25"
      rfl rfl rfl, refParseFloat64_inf, refParseFloat64_ask_price, refParseFloat64_bid_amount,
      refParseFloat64_bid_price]
  · rw [makeOrderBook_two refUnmarshal refParseFloat64 infinityOopsPayload
      ⟨"", ⟨["1.5", "oops"], ["Inf", "29010.10"]⟩⟩ "Inf" "29010.10" "1.5" "oops"
      rfl rfl rfl, refParseFloat64_inf, refParseFloat64_ask_price, refParseFloat64_bid_amount,
      refParseFloat64_oops]
    rfl

/-- C3, amended: when the payload decodes to a struct whose `ask` is
`[a₀, a₁]` and whose `bid` is `[b₀, b₁]` and the number reader the code
calls, `strconv.ParseFloat`, rejects one of the four strings, `makeOrderBook`
returns the zero book and the error whose message is `invalid float value: `
followed by the first string that the reader rejects, in the order `a₀`,
`a₁`, `b₀`, `b₁`. -/
theorem makeOrderBook_names_first_invalid {F : Type} [Zero F]
    (unmarshal : String → Except GoError BboMessage)
    (parseFloat : String → Except GoError F) (msg : String) (res : BboMessage)
    (a₀ a₁ b₀ b₁ : String) (hu : unmarshal msg = .ok res)
    (ha : res.Data.Ask = [a₀, a₁]) (hb : res.Data.Bid = [b₀, b₁])
    (hbad : ∃ s ∈ [a₀, a₁, b₀, b₁], validFloat parseFloat s = false) :
    ∃ s, [a₀, a₁, b₀, b₁].find? (fun t => !validFloat parseFloat t) = some s ∧
      makeOrderBook unmarshal parseFloat msg =
        .returned (BestOrderBook.zero F, some (.errorf ("invalid float value: " ++ s))) ∧
      (GoError.errorf ("invalid float value: " ++ s)).Error = "invalid float value: " ++ s := by
  rw [makeOrderBook_two unmarshal parseFloat msg res a₀ a₁ b₀ b₁ hu ha hb]
  cases h₀ : parseFloat a₀ with
  | error _ => exact ⟨a₀, by simp [List.find?, validFloat, h₀], rfl, rfl⟩
  | ok x₀ =>
  cases h₁ : parseFloat a₁ with
  | error _ => exact ⟨a₁, by simp [List.find?, validFloat, h₀, h₁], rfl, rfl⟩
  | ok x₁ =>
  cases h₂ : parseFloat b₀ with
  | error _ => exact ⟨b₀, by simp [List.find?, validFloat, h₀, h₁, h₂], rfl, rfl⟩
  | ok y₀ =>
  cases h₃ : parseFloat b₁ with
  | error _ => exact ⟨b₁, by simp [List.find?, validFloat, h₀, h₁, h₂, h₃], rfl, rfl⟩
  | ok y₁ =>
    exfalso
    obtain ⟨s, hs, hv⟩ := hbad
    simp only [List.mem_cons, List.mem_singleton, List.not_mem_nil, or_false] at hs
    rcases hs with rfl | rfl | rfl | rfl <;> simp [validFloat, h₀, h₁, h₂, h₃] at hv

/-- C3 amended, at a payload whose ask price and bid price are both
rejected: the error names the ask price, which is read first. -/
theorem makeOrderBook_names_first_invalid_witness :
    makeOrderBook refUnmarshal refParseFloat badLiteralPayload =
      .returned (BestOrderBook.zero ℚ, some (.errorf "invalid float value: 12,5")) := by
  obtain ⟨s, hfind, hrun, -⟩ :=
    makeOrderBook_names_first_invalid refUnmarshal refParseFloat badLiteralPayload
      ⟨"", ⟨["1.5", "oops"], ["0.8", "12,5"]⟩⟩ "0.8" "12,5" "1.5" "oops" rfl rfl rfl
      ⟨"oops", by simp, rfl⟩
  have hs : s = "12,5" := by
    have h' : ["0.8", "12,5", "1.5", "oops"].find? (fun t => !validFloat refParseFloat t)
        = some "12,5" := rfl
    rw [h'] at hfind
    exact (Option.some.inj hfind).symm
  rw [hrun, hs]
  rfl

/-- C10, refuted: on a payload whose ask amount is the literal `-0.8`,
`makeOrderBook` returns a nil error and a book whose ask amount is negative. -/
theorem makeOrderBook_negative_amount :
    ∃ book : BestOrderBook ℚ,
      makeOrderBook refUnmarshal refParseFloat negativePayload = .returned (book, none) ∧
      book = { Ask := { Amount := -0.8, Price := 29010.10 },
               Bid := { Amount := 1.5, Price := 29000.25 } } ∧
      ¬ (0 ≤ book.Ask.Amount) := by
  refine ⟨_, ?_, rfl, ?_⟩
  · rw [makeOrderBook_two refUnmarshal refParseFloat negativePayload
      ⟨"", ⟨["1.5", "29000.25"], ["-0.8", "29010.10"]⟩⟩ "-0.8" "29010.10" "1.5" "29000.25"
      rfl rfl rfl, refParseFloat_negative, refParseFloat_ask_price, refParseFloat_bid_amount,
      refParseFloat_bid_price]
  · norm_num

/-- C10, amended: a book that `makeOrderBook` returns with a nil error holds,
as ask amount, ask price, bid amount and bid price, the values the number
reader gives for the strings `ask[0]`, `ask[1]`, `bid[0]` and `bid[1]` of
the payload; no test of their sign is made. -/
theorem makeOrderBook_values_are_parsed {F : Type} [Zero F]
    (unmarshal : String → Except GoError BboMessage)
    (parseFloat : String → Except GoError F) (msg : String) (book : BestOrderBook F)
    (h : makeOrderBook unmarshal parseFloat msg = .returned (book, none)) :
    ∃ res a₀ a₁ b₀ b₁, unmarshal msg = .ok res ∧
      res.Data.Ask = [a₀, a₁] ∧ res.Data.Bid = [b₀, b₁] ∧
      parseFloat a₀ = .ok book.Ask.Amount ∧ parseFloat a₁ = .ok book.Ask.Price ∧
      parseFloat b₀ = .ok book.Bid.Amount ∧ parseFloat b₁ = .ok book.Bid.Price := by
  rcases makeOrderBook_cases unmarshal parseFloat msg with ⟨err, he⟩ | hok
  · rw [he] at h
    simp at h
  · obtain ⟨res, a₀, a₁, b₀, b₁, x₀, x₁, y₀, y₁, hu, ha, hb, h₀, h₁, h₂, h₃, hrun⟩ := hok
    rw [hrun] at h
    have hbook : book = ⟨⟨x₀, x₁⟩, ⟨y₀, y₁⟩⟩ := by
      injection h with h
      injection h with h _
      exact h.symm
    subst hbook
    exact ⟨res, a₀, a₁, b₀, b₁, hu, ha, hb, h₀, h₁, h₂, h₃⟩

/-- C10 amended, at the payload whose ask amount is `-0.8`. -/
theorem makeOrderBook_values_are_parsed_witness :
    ∃ res a₀ a₁ b₀ b₁, refUnmarshal negativePayload = .ok res ∧
      res.Data.Ask = [a₀, a₁] ∧ res.Data.Bid = [b₀, b₁] ∧
      refParseFloat a₀ = .ok (-0.8) ∧ refParseFloat a₁ = .ok 29010.10 ∧
      refParseFloat b₀ = .ok 1.5 ∧ refParseFloat b₁ = .ok 29000.25 :=
  makeOrderBook_values_are_parsed refUnmarshal refParseFloat negativePayload
    { Ask := { Amount := -0.8, Price := 29010.10 }, Bid := { Amount := 1.5, Price := 29000.25 } }
    (by
      rw [makeOrderBook_two refUnmarshal refParseFloat negativePayload
        ⟨"", ⟨["1.5", "29000.25"], ["-0.8", "29010.10"]⟩⟩ "-0.8" "29010.10" "1.5" "29000.25"
        rfl rfl rfl, refParseFloat_negative, refParseFloat_ask_price,
        refParseFloat_bid_amount, refParseFloat_bid_price])

end WsTask

/-! ## The message pump: theorems -/

namespace WsTask

theorem forwarded_log {F : Type} (text : String) :
    forwarded ([.log text] : List (Event F)) = [] := rfl

theorem forwarded_send {F : Type} (book : BestOrderBook F) :
    forwarded ([.send book] : List (Event F)) = [book] := rfl

theorem handleData_unparsed {F : Type} [Zero F]
    (unmarshalUntyped : String → Except GoError (UntypedJson F))
    (unmarshal : String → Except GoError BboMessage)
    (parseFloat : String → Except GoError F) (res : String) (err : GoError)
    (hne : res.length ≠ 0) (hu : unmarshalUntyped res = .error err) :
    handleData unmarshalUntyped unmarshal parseFloat res =
      ([.log ("could not parse json :%w " ++ err.Error)], .returned .next) := by
  simp [handleData, hne, hu]

theorem handleData_bbo {F : Type} [Zero F]
    (unmarshalUntyped : String → Except GoError (UntypedJson F))
    (unmarshal : String → Except GoError BboMessage)
    (parseFloat : String → Except GoError F) (res : String) (untyped : UntypedJson F)
    (hne : res.length ≠ 0) (hu : unmarshalUntyped res = .ok untyped)
    (hm : untyped "m" = .string "bbo") :
    handleData unmarshalUntyped unmarshal parseFloat res =
      match makeOrderBook unmarshal parseFloat res with
      | .panicked why => ([], .panicked why)
      | .returned (_, some err) => ([.log err.Error], .returned .next)
      | .returned (book, none) => ([.send book], .returned .next) := by
  simp [handleData, hne, hu, hm]

theorem handleData_other {F : Type} [Zero F]
    (unmarshalUntyped : String → Except GoError (UntypedJson F))
    (unmarshal : String → Except GoError BboMessage)
    (parseFloat : String → Except GoError F) (res : String) (untyped : UntypedJson F)
    (hne : res.length ≠ 0) (hu : unmarshalUntyped res = .ok untyped)
    (hm : untyped "m" ≠ .string "bbo") :
    ∃ text, handleData unmarshalUntyped unmarshal parseFloat res =
      ([.log text], .returned .next) := by
  simp only [handleData, hne, hu, if_false]
  split
  · exact ⟨_, rfl⟩
  · exact ⟨_, rfl⟩
  · exact ⟨_, rfl⟩
  · rename_i h
    exact absurd h hm
  · exact ⟨_, rfl⟩

/-- C6: in an iteration of the pump that receives a non-empty frame, a book
is sent on the output channel exactly when the frame decodes to a map whose
value under `m` is the string `bbo` and `makeOrderBook` returns this book
with a nil error; at most one book is sent.  When the value under `m` is
anything else nothing is sent.  In every case the iteration ends by going on
to the next one. -/
theorem pumpIteration_forwards {F : Type} [Zero F]
    (unmarshalUntyped : String → Except GoError (UntypedJson F))
    (unmarshal : String → Except GoError BboMessage)
    (parseFloat : String → Except GoError F) (res : String) (hne : res.length ≠ 0) :
    (∀ book, book ∈ forwarded (pumpIteration unmarshalUntyped unmarshal parseFloat (.data res)).1 ↔
      ((∃ untyped, unmarshalUntyped res = .ok untyped ∧ untyped "m" = .string "bbo") ∧
        makeOrderBook unmarshal parseFloat res = .returned (book, none))) ∧
    (forwarded (pumpIteration unmarshalUntyped unmarshal parseFloat (.data res)).1).length ≤ 1 ∧
    (∀ untyped, unmarshalUntyped res = .ok untyped → untyped "m" ≠ .string "bbo" →
      forwarded (pumpIteration unmarshalUntyped unmarshal parseFloat (.data res)).1 = []) ∧
    (pumpIteration unmarshalUntyped unmarshal parseFloat (.data res)).2 = .returned .next := by
  show (∀ book, book ∈ forwarded (handleData unmarshalUntyped unmarshal parseFloat res).1 ↔ _) ∧
    (forwarded (handleData unmarshalUntyped unmarshal parseFloat res).1).length ≤ 1 ∧
    (∀ untyped, unmarshalUntyped res = .ok untyped → untyped "m" ≠ .string "bbo" →
      forwarded (handleData unmarshalUntyped unmarshal parseFloat res).1 = []) ∧
    (handleData unmarshalUntyped unmarshal parseFloat res).2 = .returned .next
  cases hu : unmarshalUntyped res with
  | error err =>
    rw [handleData_unparsed _ _ _ _ err hne hu]
    simp [forwarded_log]
  | ok untyped =>
    by_cases hm : untyped "m" = .string "bbo"
    · rw [handleData_bbo _ _ _ _ untyped hne hu hm]
      rcases makeOrderBook_cases unmarshal parseFloat res with ⟨err, he⟩ | hok
      · rw [he]
        simp [forwarded_log, hm]
      · obtain ⟨_, _, _, _, _, x₀, x₁, y₀, y₁, _, _, _, _, _, _, _, hrun⟩ := hok
        rw [hrun]
        simp only [forwarded_send, List.mem_singleton, List.length_singleton, le_refl,
          true_and, and_true]
        refine ⟨fun book => ?_, fun u hu' hne' => ?_⟩
        · constructor
          · rintro rfl
            exact ⟨⟨untyped, rfl, hm⟩, rfl⟩
          · rintro ⟨-, h⟩
            injection h with h
            injection h with h _
            exact h.symm
        · injection hu' with hu'
          exact absurd (hu' ▸ hm) hne'
    · obtain ⟨text, ht⟩ := handleData_other _ _ _ _ untyped hne hu hm
      rw [ht]
      simp [forwarded_log, hm]

/-- C6, at a data frame of the feed: its book is sent and the pump goes on. -/
theorem pumpIteration_forwards_witness :
    ({ Ask := { Amount := 0.8, Price := 29010.10 }, Bid := { Amount := 1.5, Price := 29000.25 } }
        : BestOrderBook ℚ) ∈
      forwarded (pumpIteration refUnmarshalUntyped refUnmarshal refParseFloat (.data bboFrame)).1 ∧
    (pumpIteration refUnmarshalUntyped refUnmarshal refParseFloat (.data bboFrame)).2 =
      .returned .next :=
  have h := pumpIteration_forwards refUnmarshalUntyped refUnmarshal refParseFloat bboFrame
    (by decide)
  ⟨(h.1 _).2 ⟨⟨_, rfl, rfl⟩, by
      rw [makeOrderBook_two refUnmarshal refParseFloat bboFrame
        ⟨"BTC/USDT", ⟨["1.5", "29000.25"], ["0.8", "29010.10"]⟩⟩ "0.8" "29010.10" "1.5"
        "29000.25" rfl rfl rfl, refParseFloat_ask_amount, refParseFloat_ask_price,
        refParseFloat_bid_amount, refParseFloat_bid_price]⟩,
    h.2.2.2⟩

end WsTask
